import Mathlib

/-!
Shallow embedding of the goal-driven plan/execute/verify core of the GB2
desktop-automation agent, together with proofs settling the frozen claims
about its specification.

Components modelled (file, class):
* `src/goal_verifier.py`, class `GoalVerifier` — confidence-weighted goal
  verification;
* `src/goal_planner.py`, class `GoalPlanner` — plan decomposition with
  retry and keyword fallback;
* `src/action_executor.py`, class `ActionExecutor` — action dispatch and
  action-level verification;
* `src/main.py`, class `Agent` — the orchestrator run loop.

External effects (input synthesis, screen capture, the LLM planning
service, the file system) are modelled as oracle parameters; machine
state values are modelled by the `PyVal` type below.
-/

namespace GB2

/-- Model of a dynamically typed Python value as it occurs in the agent's
state dictionaries, action parameter maps and JSON records. -/
inductive PyVal : Type where
  | none : PyVal
  | bool (b : Bool) : PyVal
  | int (n : Int) : PyVal
  | str (s : String) : PyVal
  | list (l : List PyVal) : PyVal
  | dict (d : List (String × PyVal)) : PyVal
deriving Repr

mutual

/-- Structural equality on `PyVal`, modelling Python `==` on values of the
same runtime type (cross-type comparisons evaluate to `False`; the claims
never compare a bool with an int, so Python's `True == 1` quirk is not
reachable in any statement below). -/
def pyBeq : PyVal → PyVal → Bool
  | .none, .none => true
  | .bool a, .bool b => a == b
  | .int a, .int b => a == b
  | .str a, .str b => a == b
  | .list a, .list b => pyListBeq a b
  | .dict a, .dict b => pyDictBeq a b
  | _, _ => false

/-- Elementwise equality of Python lists. -/
def pyListBeq : List PyVal → List PyVal → Bool
  | [], [] => true
  | x :: xs, y :: ys => pyBeq x y && pyListBeq xs ys
  | _, _ => false

/-- Pairwise equality of Python dicts in insertion order (the agent only
compares dicts it built in a fixed order, so order-sensitive equality is
faithful for every comparison the claims reach). -/
def pyDictBeq : List (String × PyVal) → List (String × PyVal) → Bool
  | [], [] => true
  | (k, v) :: xs, (k2, v2) :: ys => k == k2 && pyBeq v v2 && pyDictBeq xs ys
  | _, _ => false

end

instance : BEq PyVal := ⟨pyBeq⟩

/-- Python truthiness of a modelled value (`bool(v)`). -/
def truthy : PyVal → Bool
  | .none => false
  | .bool b => b
  | .int n => n != 0
  | .str s => s ≠ ""
  | .list l => !l.isEmpty
  | .dict d => !d.isEmpty

/-- Lookup in a Python dict modelled as an association list, returning the
given default when the key is absent (`d.get(k, default)`). -/
def getD (d : List (String × PyVal)) (k : String) (v : PyVal) : PyVal :=
  match d.find? (fun kv => kv.1 == k) with
  | some kv => kv.2
  | Option.none => v

/-- Lookup modelling `d.get(k)`, whose Python default is `None`. -/
def get0 (d : List (String × PyVal)) (k : String) : PyVal :=
  getD d k .none

/-- Check whether the first character list is an initial segment of the
second; building block for the substring test below. -/
def leadsWith : List Char → List Char → Bool
  | [], _ => true
  | _ :: _, [] => false
  | a :: as, b :: bs => a == b && leadsWith as bs

/-- Check whether the first character list occurs contiguously inside the
second. -/
def occursIn (p : List Char) : List Char → Bool
  | [] => p.isEmpty
  | c :: rest => leadsWith p (c :: rest) || occursIn p rest

/-- Model of the Python substring test `p in t` on strings. -/
def strIn (p t : String) : Bool :=
  occursIn p.toList t.toList

/-- Model of Python `s.lower()` (ASCII case folding; the agent only folds
ASCII program and window names). -/
def lower (s : String) : String :=
  String.mk (s.toList.map Char.toLower)

/-- Model of Python `s.upper()` (ASCII). -/
def upper (s : String) : String :=
  String.mk (s.toList.map Char.toUpper)

/-- Model of Python `s.endswith(c)` for a one-character suffix. -/
def endsWithChar (s : String) (c : Char) : Bool :=
  match s.toList.getLast? with
  | some last => last == c
  | Option.none => false

/-- Extract the string elements of a modelled Python list value; used for
`window_titles` and `processes` entries of a state snapshot. -/
def pyStrList : PyVal → List String
  | .list l => l.filterMap (fun v => match v with | .str s => some s | _ => Option.none)
  | _ => []

/-! ## GoalVerifier (`src/goal_verifier.py`)

The verifier consults the screen and the window system; those effects are
modelled by oracle fields of `VerifyRoundEnv`, one per capture round (the
initial check and the one re-check after the settle delay). -/

/-- Program-info record as kept in `program_info_cache` / the `programs/`
knowledge directory (`_get_program_info`, goal_verifier.py:382-439); only
the two fields the state check reads are modelled. -/
structure ProgramInfo : Type where
  window_patterns : List String
  process_names : List String
deriving Repr

/-- One entry of `knowledge/patterns/visual_patterns.json`
(`_load_expected_patterns`, goal_verifier.py:219-238). -/
structure PatternData : Type where
  keywords : List String
  template_path : String
  threshold : ℚ := 8/10
deriving Repr

/-- One entry of the visual-check result dict built by
`_verify_visual_state` (goal_verifier.py:207-211). -/
structure MatchEntry : Type where
  matched : Bool
  confidence : ℚ
deriving Repr

/-- Per-capture-round oracle for the verifier: what the screen, the window
system and the two pixel-level helpers report during that round. -/
structure VerifyRoundEnv : Type where
  /-- Result of `cv2.imread` for a template path: `none` when the read
  fails (the pattern is then skipped), otherwise the match score
  `max_val` produced by `cv2.matchTemplate` against this round's screen. -/
  templateScore : String → Option ℚ
  /-- State dictionary after `current_state.update(self._get_current_state())`. -/
  currentState : List (String × PyVal)
  /-- Outcome of `_verify_drawing_present` on this round's screen. -/
  drawingPresent : Bool
  /-- Outcome of `_verify_program_window` for the goal. -/
  programWindow : Bool

/-- Environment of one `verify_goal_completion` call: the patterns file
(`none` models an absent `visual_patterns.json`), the program-info lookup,
and the two capture rounds. -/
structure VerifyEnv : Type where
  patternsFile : Option (List (String × PatternData))
  progInfo : PyVal → Option ProgramInfo
  round1 : VerifyRoundEnv
  round2 : VerifyRoundEnv

/-- Model of `_load_expected_patterns` (goal_verifier.py:219-238): an
absent file yields `{}`; otherwise the entries whose `keywords` contain a
keyword occurring in the lower-cased goal are kept. -/
def load_expected_patterns (patternsFile : Option (List (String × PatternData)))
    (goal : String) : List (String × PatternData) :=
  match patternsFile with
  | Option.none => []
  | some allPatterns =>
      allPatterns.filter (fun p => p.2.keywords.any (fun kw => strIn kw (lower goal)))

/-- Model of `_verify_visual_state` (goal_verifier.py:187-217): for each
matching pattern whose template loads, record whether the match score
reaches the pattern's threshold. The exceptional path returns Python
`None`, hence the `Option` result. -/
def verify_visual_state (round : VerifyRoundEnv)
    (patterns : List (String × PatternData)) : Option (List (String × MatchEntry)) :=
  some <| patterns.filterMap (fun p =>
    match round.templateScore p.2.template_path with
    | Option.none => Option.none
    | some maxVal => some (p.1, ⟨decide (maxVal ≥ p.2.threshold), maxVal⟩))

/-- Result dict of the program_open branch of the state check
(goal_verifier.py:256-283), split out so the loop below stays readable:
`none` models the early `return False` taken when the program info is
falsy. -/
def programOpenCheck (progInfo : PyVal → Option ProgramInfo)
    (cur : List (String × PyVal)) (expectedValue : PyVal) : Option Bool :=
  match progInfo expectedValue with
  | Option.none => Option.none
  | some info =>
      let windowTitles := pyStrList (getD cur "window_titles" (.list []))
      let processes := pyStrList (getD cur "processes" (.list []))
      let windowMatch := windowTitles.any (fun title =>
        info.window_patterns.any (fun pattern => strIn (lower pattern) (lower title)))
      let processMatch := processes.any (fun proc =>
        info.process_names.any (fun nm => strIn (lower nm) (lower proc)))
      some (windowMatch || processMatch)

/-- Requirement test for one `(key, expected_value)` entry of the expected
state (body of the loop of `_verify_state_requirements`,
goal_verifier.py:248-296). `some none` means the entry is skipped
(`continue`), `some (some b)` sets `requirement_met = b`, and `none`
models the early `return False` of the missing-program-info branch. -/
def stateEntryCheck (progInfo : PyVal → Option ProgramInfo)
    (cur : List (String × PyVal)) (key : String) (ev : PyVal) :
    Option (Option Bool) :=
  if ev == PyVal.none then some Option.none
  else if key == "program_open" then
    if ev == PyVal.bool false then some Option.none
    else
      match programOpenCheck progInfo cur ev with
      | Option.none => Option.none
      | some met => some (some met)
  else if key == "window_title" then
    if !(truthy ev) then some Option.none
    else
      match ev, get0 cur key with
      | .str expected, .str current =>
          if current ≠ "" then some (some (strIn (lower expected) (lower current)))
          else some (some false)
      | _, _ => some (some false)
  else
    some (some (get0 cur key == ev))

/-- Loop of `_verify_state_requirements` over the expected-state entries,
carrying the `all_requirements_met` flag. -/
def stateEntriesLoop (progInfo : PyVal → Option ProgramInfo)
    (cur : List (String × PyVal)) : List (String × PyVal) → Bool → Bool
  | [], acc => acc
  | (key, ev) :: rest, acc =>
      match stateEntryCheck progInfo cur key ev with
      | Option.none => false
      | some Option.none => stateEntriesLoop progInfo cur rest acc
      | some (some met) => stateEntriesLoop progInfo cur rest (acc && met)

/-- Model of `_verify_state_requirements` (goal_verifier.py:240-302): a
falsy `expected_state` passes trivially, otherwise every meaningful entry
must hold. -/
def verify_state_requirements (progInfo : PyVal → Option ProgramInfo)
    (cur : List (String × PyVal)) (expected : Option (List (String × PyVal))) : Bool :=
  match expected with
  | Option.none => true
  | some es => if es.isEmpty then true else stateEntriesLoop progInfo cur es true

/-- Model of `_verify_goal_specific` (goal_verifier.py:105-113). -/
def verify_goal_specific (round : VerifyRoundEnv) (goal : String) : Bool :=
  if strIn "draw" (lower goal) then round.drawingPresent
  else if strIn "open" (lower goal) then round.programWindow
  else true

/-- Result dict of one verification round (goal_verifier.py:67-71). -/
structure VerifyResults : Type where
  visual_check : Option (List (String × MatchEntry))
  state_check : Bool
  goal_specific : Bool

/-- Python truthiness of the visual-check entry: `None` and the empty
dict are falsy, a non-empty result dict is truthy. -/
def visualTruthy : Option (List (String × MatchEntry)) → Bool
  | Option.none => false
  | some l => !l.isEmpty

/-- Model of `_calculate_verification_confidence`
(goal_verifier.py:133-146): the sum of the weights of the truthy checks
(weights 0.4, 0.3, 0.3; exact rationals are faithful here because every
float sum the code can form — 0, 0.3, 0.4, 0.6, 0.7, 1.0 — rounds to a
double on the same side of the 0.5 and 0.8 thresholds). -/
def calculate_verification_confidence (r : VerifyResults) : ℚ :=
  (if visualTruthy r.visual_check then 4/10 else 0)
    + (if r.state_check then 3/10 else 0)
    + (if r.goal_specific then 3/10 else 0)

/-- Checks of one round of `verify_goal_completion`
(goal_verifier.py:67-71 and 88-90). -/
def roundResults (env : VerifyEnv) (round : VerifyRoundEnv) (goal : String)
    (expected : Option (List (String × PyVal))) : VerifyResults where
  visual_check := verify_visual_state round (load_expected_patterns env.patternsFile goal)
  state_check := verify_state_requirements env.progInfo round.currentState expected
  goal_specific := verify_goal_specific round goal

/-- Outcome of `verify_goal_completion`: the returned `passed` boolean and
the `confidence` / `results` fields of the verification record. -/
structure VerifyOutcome : Type where
  passed : Bool
  confidence : ℚ
  results : VerifyResults

/-- Model of `verify_goal_completion` (goal_verifier.py:47-103): run the
three checks, compute the confidence, re-run everything once against the
second capture round when the confidence is below 0.5, and pass exactly
when the final confidence exceeds 0.8. -/
def verify_goal_completion (env : VerifyEnv) (goal : String)
    (expected : Option (List (String × PyVal))) : VerifyOutcome :=
  let res1 := roundResults env env.round1 goal expected
  let conf1 := calculate_verification_confidence res1
  let (conf, res) :=
    if conf1 < 1/2 then
      let res2 := roundResults env env.round2 goal expected
      (calculate_verification_confidence res2, res2)
    else (conf1, res1)
  ⟨decide (conf > 8/10), conf, res⟩

/-! ## Actions, steps and plans -/

/-- Action dict as the planner, the executor and the orchestrator pass it
around; every field models one key the code reads, absent keys are
`none` / the empty list. -/
structure PAction : Type where
  type : String := ""
  params : List (String × PyVal) := []
  description : Option String := Option.none
  expected_result : Option String := Option.none
  expected_state : Option (List (String × PyVal)) := Option.none
  verification : Option PyVal := Option.none
  expected_changes : Option (List (String × PyVal)) := Option.none
deriving Repr

/-- Step dict. LLM-produced and orchestrator-made steps carry `name`,
`description`, `actions` and `required_state`; the fallback planner's
steps instead carry `description`, `action` (singular) and
`verification`. Absent keys are `none`. -/
structure Step : Type where
  name : Option String := Option.none
  description : Option String := Option.none
  actions : Option (List PAction) := Option.none
  required_state : List (String × PyVal) := []
  action : Option PAction := Option.none
  verification : Option PyVal := Option.none
deriving Repr

/-! ## GoalPlanner (`src/goal_planner.py`) -/

/-- Attribute names the class `GoalPlanner` actually defines
(goal_planner.py:10-226, method `def` lines, plus the fields assigned in
`__init__`). Notably absent: `reset_plan`, `_create_planning_prompt` and
`_validate_steps`, all three of which `break_down_goal` calls. -/
def goalPlannerMethods : List String :=
  ["__init__", "ensure_knowledge_structure", "break_down_goal",
   "create_fallback_steps", "store_goal_breakdown", "log_error",
   "log_success", "extract_keywords", "adapt_pattern_to_goal",
   "log_message", "load_goal_context",
   "knowledge_dir", "logger", "llm", "current_plan", "current_step",
   "retries", "max_retries", "context_manager"]

/-- Model of Python attribute lookup on a `GoalPlanner` instance:
`self.m` succeeds exactly when the class defines `m`. -/
def hasMethod (m : String) : Bool :=
  goalPlannerMethods.contains m

/-- Model of `create_fallback_steps` (goal_planner.py:79-129): the
keyword-triggered canned plans, built exactly as the source literals. -/
def create_fallback_steps (goal : String) : List Step :=
  if strIn "paint" (lower goal) then
    [{ description := some "Open the Run dialog",
       action := some { type := "PRESS", params := [("keys", .str "win+r")] },
       verification := some (.dict [("type", .str "check_window"),
                                    ("params", .dict [("title", .str "Run")])]) },
     { description := some "Type \x27mspaint\x27 and press Enter",
       action := some { type := "TYPE",
                        params := [("text", .str "mspaint"), ("enter", .bool true)] },
       verification := some (.dict [("type", .str "check_window"),
                                    ("params", .dict [("title", .str "Paint")])]) }]
      ++ (if strIn "draw" (lower goal) then
            [{ description := some "Draw on the canvas",
               action := some { type := "DRAW", params := [] },
               verification := some (.dict [("type", .str "check_drawing"),
                                            ("params", .dict [])]) }]
          else [])
  else if strIn "notepad" (lower goal) then
    [{ description := some "Open the Run dialog",
       action := some { type := "PRESS", params := [("keys", .str "win+r")] },
       verification := some (.dict [("type", .str "check_window"),
                                    ("params", .dict [("title", .str "Run")])]) },
     { description := some "Type \x27notepad\x27 and press Enter",
       action := some { type := "TYPE",
                        params := [("text", .str "notepad"), ("enter", .bool true)] },
       verification := some (.dict [("type", .str "check_window"),
                                    ("params", .dict [("title", .str "Notepad")])]) }]
  else
    [{ description := some "Generic action",
       action := some { type := "WAIT", params := [("duration", .int 1)] },
       verification := some (.dict []) }]

/-- Write performed against the Knowledge Store by the planner; the only
write the planner can make to the goal-breakdown file is the record
appended by `store_goal_breakdown` (goal_planner.py:131-149). -/
inductive StoreWrite : Type where
  | breakdownRecord (goal : String) (steps : List Step)

/-- Effect of one `store_goal_breakdown(goal, steps)` call
(goal_planner.py:131-149): append one record
`{goal, steps, timestamp, success=None}` to `goals/breakdowns.json`. -/
def store_goal_breakdown (goal : String) (steps : List Step) : List StoreWrite :=
  [StoreWrite.breakdownRecord goal steps]

/-- Return value of `break_down_goal` paired with the Knowledge-Store
writes the call performed. -/
structure PlannerOutcome : Type where
  result : Option (List Step)
  storeWrites : List StoreWrite

/-- Model of `break_down_goal` (goal_planner.py:33-77). The first
statement of the outer `try` is `self.reset_plan()`; `GoalPlanner`
defines no attribute `reset_plan` (see `goalPlannerMethods`), so Python
raises `AttributeError` there, the outer handler (lines 75-77) logs and
returns `None`, and no Knowledge-Store write has happened. The other two
branches transcribe the function as it would behave if the attribute
existed, and are dead for this class: each retry iteration (lines 40-60)
begins by calling `self._create_planning_prompt`, also undefined, so
every attempt raises an `AttributeError` that the inner handler turns
into a retry, and after `max_retries` (3) attempts the fallback plan is
used (lines 62-73); the body contains no call to
`store_goal_breakdown`, so the write list is empty on every path. -/
def break_down_goal (goal : String) : PlannerOutcome :=
  if !(hasMethod "reset_plan") then
    ⟨Option.none, []⟩
  else if !(hasMethod "_create_planning_prompt") then
    let fallback_plan := create_fallback_steps goal
    ⟨if fallback_plan.isEmpty then Option.none else some fallback_plan, []⟩
  else
    ⟨Option.none, []⟩

/-- Claim C8 as stated: a call to `break_down_goal` on this goal appends a
breakdown record for it to the Knowledge Store. -/
def breakdownRecordAppended (goal : String) : Prop :=
  ∃ steps, StoreWrite.breakdownRecord goal steps ∈ (break_down_goal goal).storeWrites

/-! ## Agent orchestrator (`src/main.py`, class `Agent`) -/

/-- Equality test behind Python `'steps' in current_plan` when
`current_plan` is a list of step dicts: membership on a list compares the
string against each element, and a dict is never `==` a string. -/
def stepEqStr (_ : Step) (_ : String) : Bool :=
  false

/-- Python membership `s in l` for a string against a list of step
dicts. -/
def stepListHasStr (l : List Step) (s : String) : Bool :=
  l.any (fun st => stepEqStr st s)

/-- Model of `Agent.set_goal` (main.py:59-75): store the planner result as
`current_plan` and return `True` only when it is truthy and contains a
`'steps'` key. `break_down_goal` returns either `None` or a list of step
dicts, and a list never contains the string key, so the condition at
line 65 can only fail. -/
def set_goal (goal : String) : Bool :=
  match (break_down_goal goal).result with
  | Option.none => false
  | some steps =>
      if steps.isEmpty || !(stepListHasStr steps "steps") then false
      else true

/-- Plan dict as the orchestrator expects it: the step list,
`current_step_index` (read with default 0) and the optional
`expected_final_state`. -/
structure Plan : Type where
  steps : List Step
  current_step_index : Nat := 0
  expected_final_state : Option (List (String × PyVal)) := Option.none
deriving Repr

/-- Runtime value of `Agent.current_plan`: the orchestrator expects a
plan dict, but `break_down_goal` (when it returns at all) produces a bare
list of steps, so both shapes must be representable. -/
inductive PlanVal : Type where
  | dict (p : Plan)
  | stepList (l : List Step)
deriving Repr

/-- Python truthiness of `self.current_plan`: `None` and the empty list
are falsy; a plan dict the orchestrator builds always has keys. -/
def planTruthy : Option PlanVal → Bool
  | Option.none => false
  | some (.stepList l) => !l.isEmpty
  | some (.dict _) => true

/-- Mutable agent state the run loop touches. -/
structure AgentSt : Type where
  running : Bool
  errorCount : Nat
  plan : Option PlanVal
  goal : String

/-- Value of `self.max_errors` (main.py:44). -/
def maxErrors : Nat := 10

/-- Oracle environment of one `Agent.run` call: the Input Backend, the
Knowledge Store answers, the state captures and the verifier inputs.
Captures are modelled as constant over the run; the claims below only
exercise schedules where that is what the backend reports. -/
structure RunEnv : Type where
  /-- `self.executor.execute(action)` result (Input Backend). -/
  exec : PAction → Bool
  /-- `self.knowledge.get_alternative_actions(...)` result. -/
  alternatives : List PAction
  /-- `self.executor.capture_state()` result. -/
  captureState : List (String × PyVal)
  /-- Environment for the `GoalVerifier` instances `run` constructs. -/
  verifierEnv : VerifyEnv
  /-- Whether the goal-completion check's verifier call raises, taking
  the `except` path of `check_goal_completion` (main.py:252-255). -/
  goalVerifierRaises : Bool
  /-- Whether the wall-clock prerequisite timeout (main.py:113) fires. -/
  prereqTimeout : Bool

/-- Model of `Agent._check_prerequisite` (main.py:332-359): the three
known prerequisite keys checked against the captured state; unknown keys
fail. -/
def check_prerequisite (cur : List (String × PyVal)) (name : String) (ev : PyVal) : Bool :=
  if name == "program_open" then getD cur "paint_open" (.bool false) == ev
  else if name == "tool_selected" then get0 cur "current_tool" == ev
  else if name == "color_selected" then get0 cur "current_color" == ev
  else false

/-- Model of `Agent.verify_prerequisites` (main.py:306-330): every entry
of the step's `required_state` must pass `_check_prerequisite`. -/
def verify_prerequisites (env : RunEnv) (step : Step) : Bool :=
  step.required_state.all (fun kv => check_prerequisite env.captureState kv.1 kv.2)

/-- Value returned by `Agent._get_prerequisite_resolution`
(main.py:408-450): a list of actions for `program_open`, but a single
action dict for the two click resolutions. -/
inductive ResolutionVal : Type where
  | actions (l : List PAction)
  | actionDict (a : PAction)

/-- Resolution action opening the Run dialog (main.py:413-421). -/
def runDialogAction : PAction :=
  { type := "PRESS", params := [("keys", .str "win+r")],
    expected_result := some "Run dialog opens",
    verification := some (.dict [("type", .str "window_title"), ("value", .str "Run")]) }

/-- Resolution action typing `mspaint` (main.py:423-434). -/
def typeMspaintAction : PAction :=
  { type := "TYPE", params := [("text", .str "mspaint"), ("enter", .bool true)],
    expected_result := some "Paint opens",
    verification := some (.dict [("type", .str "window_title"), ("value", .str "Paint")]) }

/-- Model of `_get_prerequisite_resolution` (main.py:408-450). -/
def get_prerequisite_resolution (name : String) : Option ResolutionVal :=
  if name == "program_open" then
    some (.actions [runDialogAction, typeMspaintAction])
  else if name == "tool_selected" then
    some (.actionDict { type := "CLICK", params := [("target", .str "tool_button")],
                        expected_result := some "Tool selected" })
  else if name == "color_selected" then
    some (.actionDict { type := "CLICK", params := [("target", .str "color_picker")],
                        expected_result := some "Color selected" })
  else Option.none

/-- Model of `Agent.verify_action_result` (main.py:482-493): actions
without a truthy `expected_result` pass trivially; otherwise a fresh
`GoalVerifier` is consulted with the expected result as the goal. -/
def agent_verify_action_result (venv : VerifyEnv) (a : PAction) : Bool :=
  match a.expected_result with
  | Option.none => true
  | some er =>
      if er = "" then true
      else (verify_goal_completion venv er a.expected_state).passed

/-- Body of the `handle_missing_prerequisites` loop (main.py:365-400) for
one required-state entry; `false` models each of its `return False`
paths. Iterating the single-dict resolutions binds the loop variable to
the dict's string keys, on which `action.get` raises `AttributeError`,
caught by the handler at main.py:403-405. -/
def resolveEntry (env : RunEnv) (name : String) (ev : PyVal) : Bool :=
  if check_prerequisite env.captureState name ev then true
  else
    match get_prerequisite_resolution name with
    | Option.none => false
    | some (.actionDict _) => false
    | some (.actions l) =>
        if l.all (fun a => env.exec a) then
          check_prerequisite env.captureState name ev
        else false

/-- Model of `Agent.handle_missing_prerequisites` (main.py:361-405); the
per-action verification failures inside only log and `continue`, so they
are not represented. -/
def handle_missing_prerequisites (env : RunEnv) (step : Step) : Bool :=
  step.required_state.all (fun kv => resolveEntry env kv.1 kv.2)

/-- Prerequisite sub-loop of `Agent.run` (main.py:111-130). `some r`
models a `return r`, `none` a normal exit from the loop. The `Nat`
argument is the number of `handle_missing_prerequisites` attempts still
allowed before `prereq_attempts > max_prereq_attempts` (3) fires; when it
reaches zero the timeout check and the attempt check both return `False`,
so they are collapsed. -/
def prereqLoopGo (env : RunEnv) (running : Bool) (step : Step) : Nat → Option Bool
  | 0 =>
      if !running then Option.none
      else if verify_prerequisites env step then Option.none
      else some false
  | m + 1 =>
      if !running then Option.none
      else if verify_prerequisites env step then Option.none
      else if env.prereqTimeout then some false
      else if !(handle_missing_prerequisites env step) then some false
      else prereqLoopGo env running step m

/-- Model of `Agent.validate_step` (main.py:591-594). -/
def validate_step (s : Step) : Bool :=
  s.name.isSome && s.description.isSome && s.actions.isSome

/-- Model of `Agent.get_next_step` (main.py:558-589): return `None` past
the end of the step list, otherwise advance `current_step_index` and
return the step when it validates. -/
def get_next_step (p : Plan) : Option Step × Plan :=
  let i := p.current_step_index
  if h : i < p.steps.length then
    let step := p.steps.get ⟨i, h⟩
    let p2 := { p with current_step_index := i + 1 }
    if validate_step step then (some step, p2) else (Option.none, p2)
  else (Option.none, p)

/-- Model of `Agent.create_recovery_steps` (main.py:539-556): one
`alt+tab` recovery step when the captured state has a falsy
`paint_ready` key. -/
def create_recovery_steps (cur : List (String × PyVal)) : List Step :=
  if (cur.find? (fun kv => kv.1 == "paint_ready")).isSome
      && !(truthy (get0 cur "paint_ready")) then
    [{ name := some "restore_paint_window",
       description := some "Restore Paint window",
       actions := some [{ type := "PRESS", params := [("keys", .str "alt+tab")],
                          description := some "Switch to Paint window" }] }]
  else []

/-- Model of `Agent.handle_verification_failure` (main.py:495-501):
record the failure and, when recovery steps exist, splice them into the
plan at the current index. -/
def handle_verification_failure (env : RunEnv) (s : AgentSt) : AgentSt :=
  let recovery := create_recovery_steps env.captureState
  if recovery.isEmpty then s
  else
    match s.plan with
    | some (.dict p) =>
        let i := p.current_step_index
        { s with plan := some (.dict
            { p with steps := p.steps.take i ++ recovery ++ p.steps.drop i }) }
    | _ => s

/-- Model of `Agent.replan` (main.py:292-298): replace the plan with a
fresh planner result and stop when it is falsy. -/
def replanState (s : AgentSt) : AgentSt :=
  match (break_down_goal s.goal).result with
  | Option.none => { s with plan := Option.none, running := false }
  | some steps =>
      if steps.isEmpty then { s with plan := some (.stepList steps), running := false }
      else { s with plan := some (.stepList steps) }

/-- Model of `Agent.handle_low_confidence_state` (main.py:257-272). -/
def handle_low_confidence (s : AgentSt) : AgentSt :=
  if s.errorCount < maxErrors then replanState s
  else { s with running := false }

/-- Model of `Agent.check_goal_completion` (main.py:221-255): `False`
without a truthy plan or when the verifier raises; on verifier failure,
confidence above 0.5 continues silently while low confidence triggers
`handle_low_confidence_state`. Reading `expected_final_state` off a bare
step list raises, which the `except` turns into `False`. -/
def check_goal_completion (env : RunEnv) (s : AgentSt) : Bool × AgentSt :=
  if !(planTruthy s.plan) then (false, s)
  else
    match s.plan with
    | some (.stepList _) => (false, s)
    | Option.none => (false, s)
    | some (.dict p) =>
        if env.goalVerifierRaises then (false, s)
        else
          let outcome := verify_goal_completion env.verifierEnv s.goal p.expected_final_state
          if outcome.passed then (true, s)
          else if outcome.confidence > 1/2 then (false, s)
          else (false, handle_low_confidence s)

/-- Result of running the action loop of one step (main.py:136-165):
either the loop finished and control falls through to the index bump, or
one of its `return` statements fired (`none` is Python `None`, the value
of `return self.replan()`). -/
inductive ActsRes : Type where
  | finished (s : AgentSt)
  | returned (r : Option Bool)

/-- Action loop of `Agent.run` (main.py:136-165). On backend failure:
`handle_failure` (main.py:216-219) only logs — `error_count` is not
incremented anywhere — then the error-budget check, then one round of
alternatives, then `return self.replan()`. On backend success a failed
action-level verification splices recovery steps and continues. -/
def execActions (env : RunEnv) (s : AgentSt) : List PAction → ActsRes
  | [] => .finished s
  | a :: rest =>
      if !s.running then .returned (some false)
      else if env.exec a then
        if agent_verify_action_result env.verifierEnv a then execActions env s rest
        else execActions env (handle_verification_failure env s) rest
      else
        if s.errorCount ≥ maxErrors then .returned (some false)
        else if env.alternatives.any (fun alt => env.exec alt) then execActions env s rest
        else .returned Option.none

/-- Increment `current_plan['current_step_index']` (main.py:169). -/
def bumpIndex (s : AgentSt) : AgentSt :=
  match s.plan with
  | some (.dict p) =>
      { s with plan := some (.dict { p with current_step_index := p.current_step_index + 1 }) }
  | _ => s

/-- Outcome of one pass through the `while self.running` body of
`Agent.run` (main.py:91-181): either another iteration from a new state,
or the run ends with the given Python return value (`none` = `None`,
reached through `break`/fall-through and through `return self.replan()`). -/
inductive IterRes : Type where
  | more (s : AgentSt)
  | halt (r : Option Bool)

/-- Tail of the loop body after the prerequisite sub-loop: execute the
step's actions, bump the index, and run the goal-completion check
(main.py:136-176). -/
def afterPrereqs (env : RunEnv) (s : AgentSt) (step : Step) : IterRes :=
  match execActions env s (step.actions.getD []) with
  | .returned r => .halt r
  | .finished s3 =>
      let s4 := bumpIndex s3
      match check_goal_completion env s4 with
      | (true, _) => .halt Option.none
      | (false, s5) => .more s5

/-- One pass through the body of the `while self.running` loop of
`Agent.run` (main.py:91-181). A bare step-list plan is truthy, but
`current_plan.get` on a list raises `AttributeError`, which the outer
handler (main.py:177-183) turns into the end of the run. -/
def runIter (env : RunEnv) (s : AgentSt) : IterRes :=
  if !s.running then .halt Option.none
  else if !(planTruthy s.plan) then .more s
  else
    match s.plan with
    | Option.none => .more s
    | some (.stepList _) => .halt Option.none
    | some (.dict p) =>
        if p.steps.isEmpty then .halt Option.none
        else
          match get_next_step p with
          | (Option.none, _) => .halt Option.none
          | (some step, p2) =>
              let s2 := { s with plan := some (.dict p2) }
              match prereqLoopGo env s2.running step 3 with
              | some r => .halt (some r)
              | Option.none =>
                  if !s2.running then .halt (some false)
                  else afterPrereqs env s2 step

/-- Iterate the run loop for at most the given number of passes: `some r`
means the run returned `r` within the bound, `none` that it is still
looping. -/
def runN (env : RunEnv) : Nat → AgentSt → Option (Option Bool)
  | 0, _ => Option.none
  | n + 1, s =>
      match runIter env s with
      | .halt r => some (r)
      | .more s2 => runN env n s2

/-- Agent state at the top of the run loop (main.py:77-89): `run` sets
`running` and clears `error_count`; `current_plan` holds whatever the
planner produced — `set_goal` stored `break_down_goal`'s result, and the
plan thread's `create_plan` (main.py:300-304) writes the same planner
value back unchanged (its index-initialising branch requires a `'steps'`
key the value never has). -/
def initAgentState (goal : String) : AgentSt :=
  { running := true, errorCount := 0,
    plan :=
      match (break_down_goal goal).result with
      | Option.none => Option.none
      | some steps => some (.stepList steps),
    goal := goal }

/-! ## ActionExecutor (`src/action_executor.py`) -/

/-- Input event synthesized toward the desktop by the executor. -/
inductive InputEvent : Type where
  | pressKey (k : String)
  | writeText (t : String)
deriving Repr, DecidableEq

/-- Model of Python `str(v)` as the executor applies it to key and text
parameter values. The agent's own action tables only ever put plain
strings there; container values are rendered with a marker rather than
Python's literal syntax, which no claim depends on. -/
def pyStr : PyVal → String
  | .str s => s
  | .int n => toString n
  | .bool true => "True"
  | .bool false => "False"
  | .none => "None"
  | .list _ => "<list>"
  | .dict _ => "<dict>"

/-- Key presses of the PRESS branch of `execute`
(action_executor.py:36-45): a list value is pressed element by element,
anything else is pressed as a single `str(keys)`. -/
def pressEvents (keys : PyVal) : List InputEvent :=
  match keys with
  | .list l => l.map (fun k => .pressKey (pyStr k))
  | other => [.pressKey (pyStr other)]

/-- Keyboard output of the TYPE branch of `execute`
(action_executor.py:47-54): write the text, then press enter when the
text ends in a newline or the `enter` parameter is truthy. -/
def typeEvents (params : List (String × PyVal)) : List InputEvent :=
  let text := pyStr (getD params "text" (.str ""))
  [InputEvent.writeText text]
    ++ (if endsWithChar text (Char.ofNat 10) || truthy (getD params "enter" (.bool false)) then
          [InputEvent.pressKey "enter"]
        else [])

/-- Model of the expected-changes check of `verify_action_result`
(action_executor.py:225-230): every declared key must equal the
post-state value. -/
def checkExpectedChanges (post : List (String × PyVal)) (a : PAction) : Bool :=
  match a.expected_changes with
  | Option.none => true
  | some ec => ec.all (fun kv => get0 post kv.1 == kv.2)

/-- Model of `ActionExecutor.verify_action_result`
(action_executor.py:203-237): a truthy `verification` entry of type
`window_title` decides by case-folded substring match on the active
window; any other verification shape falls through to the
expected-changes check, and an action declaring neither passes
trivially. A truthy non-dict verification value raises on `.get`, which
the handler turns into `False`. -/
def exec_verify_action_result (activeWindow : String)
    (post : List (String × PyVal)) (a : PAction) : Bool :=
  let verification := a.verification.getD (.dict [])
  if truthy verification then
    match verification with
    | .dict d =>
        if get0 d "type" == PyVal.str "window_title" then
          match getD d "value" (.str "") with
          | .str expected => strIn (lower expected) (lower activeWindow)
          | _ => false
        else checkExpectedChanges post a
    | _ => false
  else checkExpectedChanges post a

/-- Model of `_attempt_recovery` (action_executor.py:425-451): re-press
`win+r` when a Run-dialog press left no `Run` window, or replay the full
Paint launch when typing `mspaint` left Paint closed; the Bool reports
whether a recovery was attempted. -/
def attempt_recovery (a : PAction) (cur : List (String × PyVal)) : Bool × List InputEvent :=
  let t := upper a.type
  if t == "PRESS" && strIn "win+r" (pyStr (getD a.params "keys" (.str ""))) then
    if !((pyStrList (getD cur "window_titles" (.list []))).contains "Run") then
      (true, [InputEvent.pressKey "win+r"])
    else (false, [])
  else if t == "TYPE" && strIn "mspaint" (pyStr (getD a.params "text" (.str ""))) then
    if !(truthy (getD cur "paint_open" (.bool false))) then
      (true, [InputEvent.pressKey "win+r", InputEvent.writeText "mspaint",
              InputEvent.pressKey "enter"])
    else (false, [])
  else (false, [])

/-- What the window system reports during one verification attempt of
`execute`: the active window title consulted by `verify_action_result`
and the freshly captured post state. -/
structure ExecAttemptEnv : Type where
  activeWindow : String
  postState : List (String × PyVal)

/-- Verification loop of `execute` (action_executor.py:68-91), one list
entry per attempt (`max_attempts = 3`): succeed as soon as one attempt
verifies; between attempts, possibly emit recovery input; after the last
failed attempt return failure. -/
def verifyLoop (a : PAction) : List ExecAttemptEnv → Bool × List InputEvent
  | [] => (false, [])
  | att :: rest =>
      if exec_verify_action_result att.activeWindow att.postState a then (true, [])
      else if rest.isEmpty then (false, [])
      else
        let (_, recoveryEvents) := attempt_recovery a att.postState
        let (r, laterEvents) := verifyLoop a rest
        (r, recoveryEvents ++ laterEvents)

/-- Oracle environment of one `execute` call: the three verification
attempts the loop can make. -/
structure ExecEnv : Type where
  attempt1 : ExecAttemptEnv
  attempt2 : ExecAttemptEnv
  attempt3 : ExecAttemptEnv

/-- Outcome of `execute`: the returned Bool, the internal `success` flag
(assigned in the PRESS/TYPE branches at action_executor.py:45 and 55 but
never read by the return path), and every input event synthesized. -/
structure ExecOutcome : Type where
  result : Bool
  success : Bool
  events : List InputEvent
deriving Repr, DecidableEq

/-- Model of `ActionExecutor.execute` (action_executor.py:24-94): state
captures synthesize nothing; only the PRESS and TYPE branches emit input
and set `success`; the returned value comes solely from the verification
loop. -/
def execute (env : ExecEnv) (a : PAction) : ExecOutcome :=
  let t := upper a.type
  let actionEvents :=
    if t == "PRESS" then pressEvents (getD a.params "keys" (.list []))
    else if t == "TYPE" then typeEvents a.params
    else []
  let success := t == "PRESS" || t == "TYPE"
  let (result, verifyEvents) := verifyLoop a [env.attempt1, env.attempt2, env.attempt3]
  ⟨result, success, actionEvents ++ verifyEvents⟩

/-! ## Claim-side formulas and concrete scenario inputs -/

/-- Confidence as the specification words it for claim C5: the weighted
boolean sum of the three checks (visual 0.4, state 0.3, goal-specific
0.3), re-computed once against the second capture when the first value
is below 0.5. Written from the claim's words, to be compared with the
code's `verify_goal_completion`. -/
def specFinalConfidence (env : VerifyEnv) (goal : String)
    (expected : Option (List (String × PyVal))) : ℚ :=
  let weightOf : Bool → ℚ → ℚ := fun b w => if b then w else 0
  let sumFor : VerifyRoundEnv → ℚ := fun round =>
    let r := roundResults env round goal expected
    weightOf (visualTruthy r.visual_check) (4/10)
      + weightOf r.state_check (3/10) + weightOf r.goal_specific (3/10)
  if sumFor env.round1 < 1/2 then sumFor env.round2 else sumFor env.round1

/-- Capture-round oracle reporting nothing at all. -/
def blankRound : VerifyRoundEnv :=
  { templateScore := fun _ => Option.none, currentState := [],
    drawingPresent := false, programWindow := false }

/-- Verifier environment with no patterns file, no program info and blank
captures. -/
def blankVerifyEnv : VerifyEnv :=
  { patternsFile := Option.none, progInfo := fun _ => Option.none,
    round1 := blankRound, round2 := blankRound }

/-- Run environment of the claim C1 scenario: an Input Backend that fails
every action, an empty Knowledge Store, blank captures. -/
def failingBackendEnv : RunEnv :=
  { exec := fun _ => false, alternatives := [], captureState := [],
    verifierEnv := blankVerifyEnv, goalVerifierRaises := true,
    prereqTimeout := false }

/-- Run environment of the claim C4 scenario: a backend that accepts every
action, so a step completes and the index bookkeeping runs. -/
def acceptingBackendEnv : RunEnv :=
  { exec := fun _ => true, alternatives := [], captureState := [],
    verifierEnv := blankVerifyEnv, goalVerifierRaises := true,
    prereqTimeout := false }

/-- Schema-valid one-action step with no prerequisites. -/
def simpleStep : Step :=
  { name := some "single_step", description := some "do one thing",
    actions := some [{ type := "CLICK" }] }

/-- One-step plan at index 0. -/
def onePlan : Plan :=
  { steps := [simpleStep] }

/-- Agent state holding the one-step plan, as the loop would see it once a
plan dict is in place. -/
def oneStepState : AgentSt :=
  { running := true, errorCount := 0, plan := some (.dict onePlan), goal := "g" }

/-- Plan value after one pass of the loop over `oneStepState`: the step
index has been advanced twice, to 2, on the 1-step plan. -/
def onePlanAfter : Plan :=
  { steps := [simpleStep], current_step_index := 2 }

/-- Agent state after that pass. -/
def oneStepStateAfter : AgentSt :=
  { running := true, errorCount := 0, plan := some (.dict onePlanAfter), goal := "g" }

/-- Step index of the agent state's plan, when the plan is a dict. -/
def planIndex (s : AgentSt) : Option Nat :=
  match s.plan with
  | some (.dict p) => some p.current_step_index
  | _ => Option.none

/-- Number of steps of the agent state's plan, when the plan is a dict. -/
def planStepCount (s : AgentSt) : Option Nat :=
  match s.plan with
  | some (.dict p) => some p.steps.length
  | _ => Option.none

/-- Executor environment whose three attempts report a fixed window. -/
def plainExecEnv : ExecEnv :=
  { attempt1 := { activeWindow := "Desktop", postState := [] },
    attempt2 := { activeWindow := "Desktop", postState := [] },
    attempt3 := { activeWindow := "Desktop", postState := [] } }

/-- Bare click action: no verification entry, no expected changes. -/
def clickAction : PAction :=
  { type := "CLICK" }

/-! ## Theorems -/

/-- Weighted-sum shape of the confidence of one round. -/
theorem calc_conf_eq (r : VerifyResults) :
    calculate_verification_confidence r
      = (if visualTruthy r.visual_check then (4/10 : ℚ) else 0)
        + (if r.state_check then (3/10 : ℚ) else 0)
        + (if r.goal_specific then (3/10 : ℚ) else 0) := rfl

/-- Claim C6: every confidence value computed by the verification engine
lies in the closed interval [0, 1], for every combination of check
outcomes. -/
theorem confidence_in_unit_interval (r : VerifyResults) :
    0 ≤ calculate_verification_confidence r ∧ calculate_verification_confidence r ≤ 1 := by
  rw [calc_conf_eq]
  split_ifs <;> norm_num

/-- Claim C5: `verify_goal_completion` reports exactly the weighted
boolean sum of the three checks (0.4 / 0.3 / 0.3), re-computed once
against the fresh capture when the first value is below 0.5, and passes
precisely when that final confidence is strictly greater than 0.8. -/
theorem passed_iff_final_confidence_gt (env : VerifyEnv) (goal : String)
    (expected : Option (List (String × PyVal))) :
    (verify_goal_completion env goal expected).confidence
        = specFinalConfidence env goal expected ∧
    ((verify_goal_completion env goal expected).passed = true ↔
        specFinalConfidence env goal expected > 8/10) := by
  unfold verify_goal_completion specFinalConfidence
  dsimp only
  rw [calc_conf_eq, calc_conf_eq]
  split_ifs <;> simp [decide_eq_true_eq]

/-- Confidence bound of one round when the goal matches no stored visual
pattern: the visual check contributes nothing, so at most 0.6 remains. -/
theorem round_conf_le_of_no_patterns (env : VerifyEnv) (round : VerifyRoundEnv)
    (goal : String) (expected : Option (List (String × PyVal)))
    (h : load_expected_patterns env.patternsFile goal = []) :
    calculate_verification_confidence (roundResults env round goal expected) ≤ 6/10 := by
  have hv : (roundResults env round goal expected).visual_check = some [] := by
    simp [roundResults, h, verify_visual_state]
  rw [calc_conf_eq, hv]
  norm_num [visualTruthy]
  split_ifs <;> norm_num

/-- Claim C9: when no stored visual pattern matches the goal's keywords —
the patterns file is absent or no entry matches — the visual check is
empty, the confidence cannot exceed 0.6, and goal verification fails,
whatever the other two checks return. -/
theorem no_matching_pattern_fails (env : VerifyEnv) (goal : String)
    (expected : Option (List (String × PyVal)))
    (h : load_expected_patterns env.patternsFile goal = []) :
    (verify_goal_completion env goal expected).passed = false ∧
    (verify_goal_completion env goal expected).confidence ≤ 6/10 := by
  have h1 := round_conf_le_of_no_patterns env env.round1 goal expected h
  have h2 := round_conf_le_of_no_patterns env env.round2 goal expected h
  have hconf : (verify_goal_completion env goal expected).confidence ≤ 6/10 := by
    unfold verify_goal_completion
    dsimp only
    split_ifs <;> assumption
  refine ⟨?_, hconf⟩
  have hpassed : (verify_goal_completion env goal expected).passed
      = decide ((verify_goal_completion env goal expected).confidence > 8/10) := rfl
  rw [hpassed, decide_eq_false_iff_not]
  intro hgt
  have : (8/10 : ℚ) < 6/10 := lt_of_lt_of_le hgt hconf
  norm_num at this

/-- Witness for claim C9 at a concrete input: no patterns file at all. -/
theorem no_matching_pattern_fails_witness :
    (verify_goal_completion blankVerifyEnv "open paint" Option.none).passed = false ∧
    (verify_goal_completion blankVerifyEnv "open paint" Option.none).confidence ≤ 6/10 :=
  no_matching_pattern_fails blankVerifyEnv "open paint" Option.none rfl

/-- Entry test for `program_open` expecting `False`: the loop body skips
it (goal_verifier.py:257-259). -/
theorem stateEntryCheck_program_open_false (pi : PyVal → Option ProgramInfo)
    (cur : List (String × PyVal)) :
    stateEntryCheck pi cur "program_open" (PyVal.bool false) = some Option.none := rfl

/-- Dropping a `program_open = False` entry anywhere in the loop does not
change the outcome of the requirements loop. -/
theorem stateEntriesLoop_skip (pi : PyVal → Option ProgramInfo)
    (cur : List (String × PyVal)) (es2 : List (String × PyVal)) :
    ∀ (es1 : List (String × PyVal)) (acc : Bool),
      stateEntriesLoop pi cur (es1 ++ ("program_open", PyVal.bool false) :: es2) acc
        = stateEntriesLoop pi cur (es1 ++ es2) acc := by
  intro es1
  induction es1 with
  | nil =>
      intro acc
      simp only [List.nil_append, stateEntriesLoop, stateEntryCheck_program_open_false]
  | cons hd tl ih =>
      intro acc
      obtain ⟨k, v⟩ := hd
      simp only [List.cons_append, stateEntriesLoop]
      cases hcheck : stateEntryCheck pi cur k v with
      | none => rfl
      | some o =>
          cases o with
          | none => exact ih acc
          | some met => exact ih (acc && met)

/-- Claim C7: an `expected_state` entry `program_open = False` is skipped
by the state-requirement verification and never changes its outcome,
whatever the current state and the rest of the expectations. -/
theorem program_open_false_never_fails (pi : PyVal → Option ProgramInfo)
    (cur : List (String × PyVal)) (es1 es2 : List (String × PyVal)) :
    verify_state_requirements pi cur
        (some (es1 ++ ("program_open", PyVal.bool false) :: es2))
      = verify_state_requirements pi cur (some (es1 ++ es2)) := by
  unfold verify_state_requirements
  dsimp only
  have hne : (es1 ++ ("program_open", PyVal.bool false) :: es2).isEmpty = false := by
    cases es1 <;> rfl
  rw [hne]
  simp only [Bool.false_eq_true, if_false]
  cases hrest : (es1 ++ es2).isEmpty with
  | true =>
      rw [if_pos rfl]
      have hnil : es1 ++ es2 = [] := by
        cases h : es1 ++ es2 with
        | nil => rfl
        | cons a l => rw [h] at hrest; simp [List.isEmpty] at hrest
      obtain ⟨h1, h2⟩ := List.append_eq_nil.mp hnil
      subst h1; subst h2
      simp only [List.nil_append, stateEntriesLoop, stateEntryCheck_program_open_false]
  | false =>
      simp only [Bool.false_eq_true, if_false]
      exact stateEntriesLoop_skip pi cur es2 es1 true

/-- Evaluation of the planner entry point: `GoalPlanner` defines no
attribute `reset_plan`, so every call raises at its first statement and
the outer handler returns `None` with no store write. -/
theorem break_down_goal_eval (goal : String) :
    break_down_goal goal = ⟨Option.none, []⟩ := rfl

/-- Claim C2 (code bug): `break_down_goal` returns `None` for every goal
— including the empty one — because `self.reset_plan` is undefined and
the resulting `AttributeError` is caught by the outer handler before the
retry/fallback logic can run; the fallback generator itself does map the
empty goal to a single no-op WAIT step, as the claim describes. -/
theorem break_down_goal_never_reaches_fallback :
    (∀ goal, (break_down_goal goal).result = Option.none) ∧
    create_fallback_steps "" =
      [{ description := some "Generic action",
         action := some { type := "WAIT", params := [("duration", PyVal.int 1)] },
         verification := some (PyVal.dict []) }] :=
  ⟨fun _ => rfl, rfl⟩

/-- Claim C3: `Agent.set_goal` returns `False` for every goal, because
`break_down_goal` always returns `None` (its first statement calls the
undefined `self.reset_plan`, caught by its outer handler) and `set_goal`
demands a truthy plan containing a `'steps'` key. -/
theorem set_goal_always_false (goal : String) : set_goal goal = false := by
  unfold set_goal
  rw [break_down_goal_eval]

/-- Counterexample to claim C8 as stated: the planning call on the
concrete goal "open paint" appends no breakdown record to the Knowledge
Store. -/
theorem break_down_goal_appends_no_record : ¬ breakdownRecordAppended "open paint" := by
  rintro ⟨steps, hmem⟩
  rw [show (break_down_goal "open paint").storeWrites = [] from rfl] at hmem
  exact List.not_mem_nil _ hmem

/-- Claim C8 amended: a call to `break_down_goal` performs no
Knowledge-Store write at all — `store_goal_breakdown` exists but planning
never invokes it, and the call aborts at its first statement in any
case. -/
theorem break_down_goal_store_untouched (goal : String) :
    (break_down_goal goal).storeWrites = [] := rfl

/-- Loop body at a state that is still waiting for a plan: the iteration
changes nothing. -/
theorem runIter_waiting (env : RunEnv) (s : AgentSt)
    (hrun : s.running = true) (hplan : s.plan = Option.none) :
    runIter env s = .more s := by
  unfold runIter
  rw [hrun, hplan]
  rfl

/-- Iterating from a fixed point of the loop never halts. -/
theorem runN_of_fixed_point (env : RunEnv) (s : AgentSt)
    (h : runIter env s = .more s) : ∀ n, runN env n s = Option.none := by
  intro n
  induction n with
  | zero => rfl
  | succ m ih =>
      unfold runN
      rw [h]
      exact ih

/-- Claim C1 (code bug): with an Input Backend that fails every action,
`run()` does not stop after `maxErrors` failures — it never terminates at
all. `break_down_goal` returns `None` for every goal, so the loop sits at
the `Waiting for plan...` fixed point forever, and no bound on the number
of iterations makes it return; `error_count` is never incremented
anywhere, so the `max_errors` exit is unreachable in any case. -/
theorem run_with_failing_backend_never_terminates (env : RunEnv) (goal : String)
    (n : Nat) (_hfail : ∀ a, env.exec a = false) :
    runIter env (initAgentState goal) = .more (initAgentState goal) ∧
    runN env n (initAgentState goal) = Option.none := by
  have hplan : (initAgentState goal).plan = Option.none := rfl
  have hstep := runIter_waiting env (initAgentState goal) rfl hplan
  exact ⟨hstep, runN_of_fixed_point env (initAgentState goal) hstep n⟩

/-- Witness for claim C1: the always-failing backend environment, the
goal "open paint", and a five-iteration bound. -/
theorem run_with_failing_backend_never_terminates_witness :
    runIter failingBackendEnv (initAgentState "open paint")
        = .more (initAgentState "open paint") ∧
    runN failingBackendEnv 5 (initAgentState "open paint") = Option.none :=
  run_with_failing_backend_never_terminates failingBackendEnv "open paint" 5 (fun _ => rfl)

/-- Claim C10: `execute` returns `True` for an action it never performs —
any action whose upper-cased type is neither `PRESS` nor `TYPE` and which
declares no `verification` and no `expected_changes` synthesizes no input
event at all, its internal `success` flag stays `False` unread, and the
trivially satisfied verification loop reports success. -/
theorem execute_accepts_unperformed_action (env : ExecEnv) (a : PAction)
    (hp : upper a.type ≠ "PRESS") (ht : upper a.type ≠ "TYPE")
    (hv : a.verification = Option.none) (hc : a.expected_changes = Option.none) :
    execute env a = ⟨true, false, []⟩ := by
  have hbp : (upper a.type == "PRESS") = false := beq_eq_false_iff_ne.mpr hp
  have hbt : (upper a.type == "TYPE") = false := beq_eq_false_iff_ne.mpr ht
  have hvr : exec_verify_action_result env.attempt1.activeWindow env.attempt1.postState a
      = true := by
    unfold exec_verify_action_result checkExpectedChanges
    rw [hv, hc]
    rfl
  unfold execute verifyLoop
  simp only [hbp, hbt, hvr, Bool.false_eq_true, if_false, if_true, Bool.false_or]
  rfl

/-- Witness for claim C10: a plain CLICK action under the fixed-window
executor environment. -/
theorem execute_accepts_unperformed_action_witness :
    execute plainExecEnv clickAction = ⟨true, false, []⟩ :=
  execute_accepts_unperformed_action plainExecEnv clickAction
    (by decide) (by decide) rfl rfl

/-- Replanning always yields `None` (the planner bug) and stops the
agent. -/
theorem replanState_eval (s : AgentSt) :
    replanState s = { s with plan := Option.none, running := false } := rfl

/-- Splicing recovery steps preserves the plan dict, its index, and never
shrinks the step list. -/
theorem handle_verification_failure_plan (env : RunEnv) (s : AgentSt) (p : Plan)
    (hs : s.plan = some (.dict p)) :
    ∃ q, (handle_verification_failure env s).plan = some (.dict q) ∧
      q.current_step_index = p.current_step_index ∧
      p.steps.length ≤ q.steps.length := by
  unfold handle_verification_failure
  dsimp only
  split_ifs with hrec
  · exact ⟨p, hs, rfl, le_refl _⟩
  · rw [hs]
    dsimp only
    refine ⟨_, rfl, rfl, ?_⟩
    simp only [List.length_append, List.length_take, List.length_drop]
    omega

/-- The action loop preserves the plan dict and its index, and never
shrinks the step list. -/
theorem execActions_plan (env : RunEnv) :
    ∀ (acts : List PAction) (s t : AgentSt) (p : Plan),
      execActions env s acts = ActsRes.finished t → s.plan = some (.dict p) →
      ∃ q, t.plan = some (.dict q) ∧ q.current_step_index = p.current_step_index ∧
        p.steps.length ≤ q.steps.length := by
  intro acts
  induction acts with
  | nil =>
      intro s t p hex hs
      unfold execActions at hex
      injection hex with h
      subst h
      exact ⟨p, hs, rfl, le_refl _⟩
  | cons a rest ih =>
      intro s t p hex hs
      unfold execActions at hex
      split_ifs at hex with h1 h2 h3 h4 h5
      all_goals first
        | exact absurd hex (by simp)
        | exact ih s t p hex hs
        | (obtain ⟨p2, hp2, hp2i, hp2l⟩ := handle_verification_failure_plan env s p hs
           obtain ⟨q, hq, hqi, hql⟩ := ih _ t p2 hex hp2
           exact ⟨q, hq, by rw [hqi, hp2i], le_trans hp2l hql⟩)

/-- When `get_next_step` yields a step it advances the index by one,
starting strictly inside the step list, and leaves the steps unchanged. -/
theorem get_next_step_some (p : Plan) (step : Step) (p2 : Plan)
    (h : get_next_step p = (some step, p2)) :
    p2.current_step_index = p.current_step_index + 1 ∧
    p.current_step_index < p.steps.length ∧ p2.steps = p.steps := by
  unfold get_next_step at h
  by_cases hlt : p.current_step_index < p.steps.length
  · rw [dif_pos hlt] at h
    dsimp only at h
    split_ifs at h with hval
    · injection h with h1 h2
      subst h2
      exact ⟨rfl, hlt, rfl⟩
    · injection h with h1 h2
      exact absurd h1 (by simp)
  · rw [dif_neg hlt] at h
    injection h with h1 h2
    exact absurd h1 (by simp)

/-- Dict plans survive a `(false, ·)` goal-completion check unchanged. -/
theorem check_goal_plan (env : RunEnv) (s t : AgentSt) (b : Bool)
    (h : check_goal_completion env s = (b, t)) (p q : Plan)
    (hs : s.plan = some (.dict p)) (ht : t.plan = some (.dict q)) : q = p := by
  unfold check_goal_completion at h
  rw [hs] at h
  simp only [planTruthy, Bool.not_true, Bool.false_eq_true, if_false] at h
  split_ifs at h with hraise hpass hconf
  · injection h with hb hst
    subst hst
    rw [hs] at ht
    injection ht with ht2
    injection ht2 with ht3
    exact ht3.symm
  · injection h with hb hst
    subst hst
    rw [hs] at ht
    injection ht with ht2
    injection ht2 with ht3
    exact ht3.symm
  · injection h with hb hst
    subst hst
    rw [hs] at ht
    injection ht with ht2
    injection ht2 with ht3
    exact ht3.symm
  · injection h with hb hst
    subst hst
    unfold handle_low_confidence at ht
    split_ifs at ht with herr
    · rw [replanState_eval] at ht
      exact absurd ht (by simp)
    · dsimp only at ht
      rw [hs] at ht
      injection ht with ht2
      injection ht2 with ht3
      exact ht3.symm

/-- An `afterPrereqs` pass that continues the loop with a dict plan has
advanced the index by exactly one more and not shrunk the steps. -/
theorem afterPrereqs_more (env : RunEnv) (s t : AgentSt) (step : Step) (p : Plan)
    (h : afterPrereqs env s step = IterRes.more t)
    (hs : s.plan = some (.dict p)) (q : Plan) (ht : t.plan = some (.dict q)) :
    q.current_step_index = p.current_step_index + 1 ∧
    p.steps.length ≤ q.steps.length := by
  unfold afterPrereqs at h
  cases hex : execActions env s (step.actions.getD []) with
  | returned r =>
      rw [hex] at h
      exact absurd h (by simp)
  | finished s3 =>
      rw [hex] at h
      dsimp only at h
      obtain ⟨q3, hq3, hq3i, hq3l⟩ := execActions_plan env _ s s3 p hex hs
      have hbump : (bumpIndex s3).plan
          = some (.dict { q3 with current_step_index := q3.current_step_index + 1 }) := by
        unfold bumpIndex
        rw [hq3]
      cases hcg : check_goal_completion env (bumpIndex s3) with
      | mk b t2 =>
          rw [hcg] at h
          cases b with
          | true => exact absurd h (by simp)
          | false =>
              dsimp only at h
              injection h with ht2
              subst ht2
              have hqeq := check_goal_plan env (bumpIndex s3) t2 false hcg _ q hbump ht
              subst hqeq
              exact ⟨by rw [hq3i], by simpa using hq3l⟩

/-- Claim C4 amended: across one loop pass that keeps a dict plan, the
step index is monotonically non-decreasing, but its bound is
`len(steps) + 1`, not `len(steps)`: the index is advanced twice per pass
(once in `get_next_step`, once after the step's actions), so it can end
one past the step count. -/
theorem step_index_monotone_bounded (env : RunEnv) (s t : AgentSt) (p q : Plan)
    (hiter : runIter env s = IterRes.more t)
    (hs : s.plan = some (.dict p)) (ht : t.plan = some (.dict q)) :
    p.current_step_index ≤ q.current_step_index ∧
    q.current_step_index ≤ q.steps.length + 1 := by
  unfold runIter at hiter
  rw [hs] at hiter
  cases hr : s.running with
  | false =>
      rw [hr] at hiter
      exact absurd hiter (by simp)
  | true =>
      rw [hr] at hiter
      simp only [planTruthy, Bool.not_true, Bool.false_eq_true, if_false] at hiter
      cases hemp : p.steps.isEmpty with
      | true =>
          rw [hemp] at hiter
          exact absurd hiter (by simp)
      | false =>
          rw [hemp] at hiter
          simp only [Bool.false_eq_true, if_false] at hiter
          cases hgs : get_next_step p with
          | mk o p2 =>
              rw [hgs] at hiter
              cases o with
              | none => exact absurd hiter (by simp)
              | some step =>
                  dsimp only at hiter
                  obtain ⟨hidx2, hlt, hsteps2⟩ := get_next_step_some p step p2 hgs
                  cases hpr : prereqLoopGo env true step 3 with
                  | some r =>
                      rw [hpr] at hiter
                      exact absurd hiter (by simp)
                  | none =>
                      rw [hpr] at hiter
                      dsimp only at hiter
                      obtain ⟨hqi, hql⟩ :=
                        afterPrereqs_more env _ t step p2 hiter rfl q ht
                      constructor
                      · rw [hqi, hidx2]
                        omega
                      · rw [hqi, hidx2]
                        rw [hsteps2] at hql
                        omega

/-- Counterexample to claim C4 as stated: on a 1-step plan with an
accepting backend, one loop pass leaves `current_step_index = 2`, past
the claimed bound `len(steps) = 1` — the index is advanced once by
`get_next_step` and once more after the step's actions. -/
theorem step_index_exceeds_step_count :
    runIter acceptingBackendEnv oneStepState = IterRes.more oneStepStateAfter ∧
    planIndex oneStepStateAfter = some 2 ∧
    planStepCount oneStepStateAfter = some 1 ∧ ¬(2 ≤ 1) :=
  ⟨rfl, rfl, rfl, by omega⟩

/-- Witness for the amended claim C4 at the concrete 1-step scenario: the
index moved from 0 to 2 and 2 is within `len(steps) + 1 = 2`. -/
theorem step_index_monotone_bounded_witness :
    onePlan.current_step_index ≤ onePlanAfter.current_step_index ∧
    onePlanAfter.current_step_index ≤ onePlanAfter.steps.length + 1 :=
  step_index_monotone_bounded acceptingBackendEnv oneStepState oneStepStateAfter
    onePlan onePlanAfter rfl rfl rfl

end GB2
